import Mathlib

/-!
Shallow embedding of the `pay_channel` ink! contract (src/lib.rs).

Machine integers are modelled as `Nat` with explicit bounds where the source
uses checked arithmetic: `Balance` is u128, `Timestamp` is u64.  The ambient
contract environment (caller, block timestamp, own account id, the ledger
transfer primitive and the crypto primitives used by `is_signature_valid`)
is passed explicitly as an `Env` record.  A call outcome is either a
process-level panic (Rust `panic!` / `unwrap` on `None`), a typed error
carrying the unchanged state, a success carrying the new state together with
the ledger transfers requested and the events emitted, or a contract
termination carrying the beneficiary of the remaining balance (the platform
primitive `terminate_contract(b)` disburses the entire remaining balance to
`b` and destroys the instance) together with the transfers already requested.
-/

namespace PayChannel

abbrev AccountId := Nat
abbrev Balance := Nat
abbrev Timestamp := Nat
abbrev Signature := Nat
abbrev PubKey := Nat
abbrev Message := Nat

def U64_MOD : Nat := 2 ^ 64

def U128_MOD : Nat := 2 ^ 128

/-- `u64::checked_add`. -/
def checked_add_u64 (a b : Nat) : Option Nat :=
  if a + b < U64_MOD then some (a + b) else none

/-- `u128::checked_add`. -/
def checked_add_u128 (a b : Nat) : Option Nat :=
  if a + b < U128_MOD then some (a + b) else none

/-- The `#[ink(storage)]` struct `PaymentChannel`. -/
structure PaymentChannel where
  sender : AccountId
  recipient : AccountId
  expiration : Option Timestamp
  withdrawn : Balance
  close_duration : Timestamp
deriving DecidableEq

/-- The contract `Error` enum, spelled as in the source. -/
inductive Error where
  | CallerIsNotSender
  | CallerIsNotRecipient
  | AmmountIsLessThanWithdrawn
  | TransferFailed
  | NotYetExpired
  | InvalidSignature
deriving DecidableEq

/-- The `SenderCloseStarted` event. -/
structure SenderCloseStarted where
  expiration : Timestamp
  close_duration : Timestamp
deriving DecidableEq

/-- The ambient ink! environment consumed by the contract: caller identity,
block timestamp, the contract instance account id, the ledger transfer
primitive (`true` = transfer succeeds), and the crypto primitives:
`recover` models `ecdsa_recover` (`none` = recovery failure),
`hash_encoded` models `hash_encoded::<Sha2x256>` of the scale-encoded pair,
`hash_pubkey` models `Blake2x256::hash` of the 33-byte compressed key,
interpreted as an `AccountId`. -/
structure Env where
  caller : AccountId
  block_timestamp : Timestamp
  account_id : AccountId
  transfer_ok : AccountId → Balance → Bool
  recover : Signature → Message → Option PubKey
  hash_encoded : AccountId × Balance → Message
  hash_pubkey : PubKey → AccountId

/-- Result of a computation that may hit a Rust `panic!` or a failing
`unwrap`. -/
inductive PanicOr (α : Type) where
  | panic : PanicOr α
  | ok : α → PanicOr α
deriving DecidableEq

/-- Outcome of one contract message call. -/
inductive Outcome where
  | panic : Outcome
  | err : Error → PaymentChannel → Outcome
  | ok : PaymentChannel → List (AccountId × Balance) → List SenderCloseStarted → Outcome
  | term : AccountId → List (AccountId × Balance) → Outcome
deriving DecidableEq

/-- `is_signature_valid` (src/lib.rs:192-217).  Hashes
`(env.account_id(), amount)`, recovers the public key from the 65-byte
signature over that message — `unwrap_or_else(|err| panic!(..))` on
failure — hashes the key to an account id and compares it with
`self.recipient`. -/
def is_signature_valid (env : Env) (self : PaymentChannel)
    (amount : Balance) (signature : Signature) : PanicOr Bool :=
  let message := env.hash_encoded (env.account_id, amount)
  match env.recover signature message with
  | none => .panic
  | some pub_key =>
      let signature_account_id := env.hash_pubkey pub_key
      .ok (self.recipient == signature_account_id)

/-- `close_inner` (src/lib.rs:64-88): caller check, stale-amount check,
signature check, then the ledger transfer of `amount - withdrawn` to the
recipient.  No storage field is mutated. -/
def close_inner (env : Env) (self : PaymentChannel)
    (amount : Balance) (signature : Signature) : Outcome :=
  if env.caller ≠ self.recipient then .err .CallerIsNotRecipient self
  else if amount < self.withdrawn then .err .AmmountIsLessThanWithdrawn self
  else
    match is_signature_valid env self amount signature with
    | .panic => .panic
    | .ok valid =>
        if valid then
          if env.transfer_ok self.recipient (amount - self.withdrawn) then
            .ok self [(self.recipient, amount - self.withdrawn)] []
          else .err .TransferFailed self
        else .err .InvalidSignature self

/-- `close` (src/lib.rs:53-61): runs `close_inner` and, only on success,
terminates the contract in favour of `self.sender`. -/
def close (env : Env) (self : PaymentChannel)
    (amount : Balance) (signature : Signature) : Outcome :=
  match close_inner env self amount signature with
  | .ok s transfers _ => .term s.sender transfers
  | o => o

/-- `start_sender_close` (src/lib.rs:90-109): caller must be the sender;
`now.checked_add(close_duration).unwrap()` (panic on overflow); emits
`SenderCloseStarted` and sets `expiration`.  There is no check that
`expiration` is currently unset. -/
def start_sender_close (env : Env) (self : PaymentChannel) : Outcome :=
  if env.caller ≠ self.sender then .err .CallerIsNotSender self
  else
    match checked_add_u64 env.block_timestamp self.close_duration with
    | none => .panic
    | some expiration =>
        .ok ⟨self.sender, self.recipient, some expiration,
             self.withdrawn, self.close_duration⟩
           [] [⟨expiration, self.close_duration⟩]

/-- `clain_timeout` (src/lib.rs:111-127): with `expiration` unset, or set
but strictly in the future, fails with `NotYetExpired`; otherwise
terminates the contract in favour of the sender.  The caller is never
inspected. -/
def clain_timeout (env : Env) (self : PaymentChannel) : Outcome :=
  match self.expiration with
  | some expiration =>
      if env.block_timestamp < expiration then .err .NotYetExpired self
      else .term self.sender []
  | none => .err .NotYetExpired self

/-- The `withdrawn` message (src/lib.rs:129-156), i.e. the withdraw
operation: caller check, signature check, stale-amount check; then
`let amount_to_withdraw = amount - self.withdrawn;
self.withdrawn.checked_add(amount_to_withdraw).unwrap();` — the checked sum
is computed (panicking on overflow) but its value is DISCARDED, exactly as
in the source, so the stored `withdrawn` field is returned unchanged —
followed by the ledger transfer. -/
def withdrawn (env : Env) (self : PaymentChannel)
    (amount : Balance) (signature : Signature) : Outcome :=
  if env.caller ≠ self.recipient then .err .CallerIsNotRecipient self
  else
    match is_signature_valid env self amount signature with
    | .panic => .panic
    | .ok valid =>
        if valid then
          if amount < self.withdrawn then .err .AmmountIsLessThanWithdrawn self
          else
            let amount_to_withdraw := amount - self.withdrawn
            match checked_add_u128 self.withdrawn amount_to_withdraw with
            | none => .panic
            | some _ =>
                if env.transfer_ok self.recipient amount_to_withdraw then
                  .ok self [(self.recipient, amount_to_withdraw)] []
                else .err .TransferFailed self
        else .err .InvalidSignature self

/-- `get_withdrawn` (src/lib.rs:173-176). -/
def get_withdrawn (self : PaymentChannel) : Balance :=
  self.withdrawn

/-- `get_expiration` (src/lib.rs:168-171). -/
def get_expiration (self : PaymentChannel) : Option Timestamp :=
  self.expiration

/-! Concrete fixtures used by witnesses and counterexamples.  Account ids:
1 = sender, 2 = recipient, 99 = an unrelated third party.  The crypto
primitives are concrete stand-ins: `recover` that always yields key 7,
`hash_pubkey` mapping every key to account 2 (so every recoverable
signature verifies as the recipient) or to 99 (so none does). -/

/-- Freshly constructed channel: sender 1, recipient 2, `withdrawn = 0`,
`close_duration = 100`. -/
def ch1 : PaymentChannel := ⟨1, 2, none, 0, 100⟩

/-- Channel that already withdrew 5 units. -/
def chW5 : PaymentChannel := ⟨1, 2, none, 5, 100⟩

/-- Channel whose sender close already began: `expiration = some 5`. -/
def chExp : PaymentChannel := ⟨1, 2, some 5, 0, 7⟩

/-- Channel with `close_duration = 1`, used for the overflow case. -/
def chDur1 : PaymentChannel := ⟨1, 2, none, 0, 1⟩

/-- Recipient calls at time 10; ledger transfers succeed; every signature
recovers to key 7, which derives to account 2 = recipient. -/
def envOk : Env :=
  ⟨2, 10, 42, fun _ _ => true, fun _ _ => some 7, fun p => p.1 + p.2, fun _ => 2⟩

/-- Same as `envOk` but ECDSA recovery fails on every signature. -/
def envNoRec : Env :=
  ⟨2, 10, 42, fun _ _ => true, fun _ _ => none, fun p => p.1 + p.2, fun _ => 2⟩

/-- Same as `envOk` but the recovered key derives to account 99, so no
signature verifies. -/
def envBadSig : Env :=
  ⟨2, 10, 42, fun _ _ => true, fun _ _ => some 7, fun p => p.1 + p.2, fun _ => 99⟩

/-- Same as `envOk` but every ledger transfer fails. -/
def envNoXfer : Env :=
  ⟨2, 10, 42, fun _ _ => false, fun _ _ => some 7, fun p => p.1 + p.2, fun _ => 2⟩

/-- Sender calls at time 10. -/
def envSend : Env :=
  ⟨1, 10, 42, fun _ _ => true, fun _ _ => some 7, fun p => p.1 + p.2, fun _ => 2⟩

/-- Sender calls at time `2 ^ 64 - 1`, the largest u64 timestamp. -/
def envBig : Env :=
  ⟨1, 2 ^ 64 - 1, 42, fun _ _ => true, fun _ _ => some 7, fun p => p.1 + p.2, fun _ => 2⟩

/-- An unrelated third party (account 99) calls at time 10. -/
def envThird : Env :=
  ⟨99, 10, 42, fun _ _ => true, fun _ _ => some 7, fun p => p.1 + p.2, fun _ => 2⟩

/-- C1: the claim says a successful `withdraw(300, sig)` from
`withdrawn = 0` leaves `withdrawn = 300`.  The source computes
`self.withdrawn.checked_add(amount_to_withdraw)` and discards the result,
so the call succeeds (300 transferred to the recipient) but the stored
`withdrawn` field is still 0 afterwards: the success outcome carries the
state `ch1` itself, whose `withdrawn` is 0, not 300. -/
theorem C1_withdrawn_not_updated :
    withdrawn envOk ch1 300 0 = Outcome.ok ch1 [(2, 300)] [] ∧
    get_withdrawn ch1 = 0 := by decide

/-- C2: the claim says ECDSA recovery failure yields the typed error
`InvalidSignature` and never a panic.  The source calls
`ecdsa_recover(..).unwrap_or_else(|err| panic!(..))`, so on a signature
whose recovery fails, `is_signature_valid` panics, and both `withdraw` and
`close` by the recipient abort with that panic rather than returning
`InvalidSignature`. -/
theorem C2_recovery_failure_panics :
    is_signature_valid envNoRec ch1 300 0 = PanicOr.panic ∧
    withdrawn envNoRec ch1 300 0 = Outcome.panic ∧
    close envNoRec ch1 300 0 = Outcome.panic := by decide

/-- C3 counterexample: with `expiration` already `some 5`, a sender call to
`start_sender_close` at time 10 with `close_duration = 7` does not fail: it
succeeds and overwrites `expiration` with `some 17`. -/
theorem C3_counterexample :
    get_expiration chExp = some 5 ∧
    start_sender_close envSend chExp =
      Outcome.ok ⟨1, 2, some 17, 0, 7⟩ [] [⟨17, 7⟩] := by decide

/-- C3 amended: `start_sender_close` checks only that the caller is the
sender; whatever the current `expiration` (unset or already set), the call
succeeds, emits `SenderCloseStarted` and overwrites `expiration` with
`now + close_duration`, so `expiration`, once set, can still be modified
(it is never unset, but it is not immutable). -/
theorem C3_amended_overwrite (env : Env) (ch : PaymentChannel)
    (h1 : env.caller = ch.sender)
    (h2 : env.block_timestamp + ch.close_duration < U64_MOD) :
    start_sender_close env ch =
      Outcome.ok ⟨ch.sender, ch.recipient,
          some (env.block_timestamp + ch.close_duration),
          ch.withdrawn, ch.close_duration⟩
        [] [⟨env.block_timestamp + ch.close_duration, ch.close_duration⟩] := by
  simp [start_sender_close, h1, checked_add_u64, h2]

/-- C3 amended, witnessed at `envSend`/`chExp`: expiration `some 5` is
overwritten with `some 17`. -/
theorem C3_amended_witness :
    start_sender_close envSend chExp =
      Outcome.ok ⟨1, 2, some 17, 0, 7⟩ [] [⟨17, 7⟩] :=
  C3_amended_overwrite envSend chExp (by decide) (by decide)

/-- C4 counterexample: with `withdrawn = 5`, the recipient calling
`withdraw(3, sig)` with an invalid signature gets `InvalidSignature`, not
`AmmountIsLessThanWithdrawn`: in the withdraw path the signature check runs
before the stale-amount check. -/
theorem C4_counterexample :
    (3 : Balance) < chW5.withdrawn ∧
    withdrawn envBadSig chW5 3 0 = Outcome.err Error.InvalidSignature chW5 ∧
    Outcome.err Error.InvalidSignature chW5 ≠
      Outcome.err Error.AmmountIsLessThanWithdrawn chW5 := by decide

/-- C4 amended: when the recipient presents `amount < withdrawn`, `close`
(and `close_inner`) fail with `AmmountIsLessThanWithdrawn` regardless of
signature validity and leave the state unchanged; `withdraw`, whose
signature check comes first, fails with `AmmountIsLessThanWithdrawn` only
when the signature is valid and with `InvalidSignature` when it is not,
leaving the state unchanged in both cases. -/
theorem C4_amended (env : Env) (ch : PaymentChannel) (a : Balance) (s : Signature)
    (h1 : env.caller = ch.recipient) (h2 : a < ch.withdrawn) :
    close env ch a s = Outcome.err Error.AmmountIsLessThanWithdrawn ch ∧
    close_inner env ch a s = Outcome.err Error.AmmountIsLessThanWithdrawn ch ∧
    (is_signature_valid env ch a s = PanicOr.ok true →
      withdrawn env ch a s = Outcome.err Error.AmmountIsLessThanWithdrawn ch) ∧
    (is_signature_valid env ch a s = PanicOr.ok false →
      withdrawn env ch a s = Outcome.err Error.InvalidSignature ch) := by
  have hci : close_inner env ch a s =
      Outcome.err Error.AmmountIsLessThanWithdrawn ch := by
    simp [close_inner, h1, h2]
  refine ⟨by simp [close, hci], hci, fun hv => ?_, fun hv => ?_⟩
  · simp [withdrawn, h1, hv, h2]
  · simp [withdrawn, h1, hv]

/-- C4 amended, witnessed: `close(3, invalid sig)` on `withdrawn = 5` fails
with `AmmountIsLessThanWithdrawn`, while `withdraw(3, invalid sig)` fails
with `InvalidSignature`. -/
theorem C4_amended_witness :
    close envBadSig chW5 3 0 = Outcome.err Error.AmmountIsLessThanWithdrawn chW5 ∧
    withdrawn envBadSig chW5 3 0 = Outcome.err Error.InvalidSignature chW5 := by
  have h := C4_amended envBadSig chW5 3 0 (by decide) (by decide)
  exact ⟨h.1, h.2.2.2 (by decide)⟩

/-- C5: `clain_timeout` fails with `NotYetExpired` exactly when `expiration`
is unset or the current time is strictly below it, and succeeds, terminating
the contract in favour of the sender (who receives the full remaining
balance), exactly when `expiration` is set and the current time has reached
it. -/
theorem C5_claim_timeout_gating (env : Env) (ch : PaymentChannel) :
    (clain_timeout env ch = Outcome.err Error.NotYetExpired ch ↔
      ∀ e ∈ ch.expiration, env.block_timestamp < e) ∧
    (clain_timeout env ch = Outcome.term ch.sender [] ↔
      ∃ e ∈ ch.expiration, e ≤ env.block_timestamp) := by
  cases hx : ch.expiration with
  | none => simp [clain_timeout, hx]
  | some e =>
      by_cases hlt : env.block_timestamp < e
      · simp [clain_timeout, hx, hlt, Nat.not_le_of_lt hlt]
      · simp [clain_timeout, hx, hlt, Nat.le_of_not_lt hlt]

/-- C6: when the caller is the recipient, the claim is not stale, the
signature verifies, and the ledger rejects the transfer of
`amount - withdrawn` to the recipient, `close` returns `TransferFailed`:
the outcome is an error carrying the unchanged state, not a termination —
atomic all-or-nothing. -/
theorem C6_close_transfer_failure_atomic (env : Env) (ch : PaymentChannel)
    (a : Balance) (s : Signature)
    (h1 : env.caller = ch.recipient)
    (h2 : ¬ a < ch.withdrawn)
    (h3 : is_signature_valid env ch a s = PanicOr.ok true)
    (h4 : env.transfer_ok ch.recipient (a - ch.withdrawn) = false) :
    close env ch a s = Outcome.err Error.TransferFailed ch := by
  simp [close, close_inner, h1, h2, h3, h4]

/-- C6 witnessed: with a failing ledger, `close(300, valid sig)` on a fresh
channel returns `TransferFailed` with the state unchanged. -/
theorem C6_witness :
    close envNoXfer ch1 300 0 = Outcome.err Error.TransferFailed ch1 :=
  C6_close_transfer_failure_atomic envNoXfer ch1 300 0
    (by decide) (by decide) (by decide) (by decide)

/-- C7: a caller other than the recipient gets `CallerIsNotRecipient` from
both `close` and `withdraw`, and a caller other than the sender gets
`CallerIsNotSender` from `start_sender_close`; in each case the error
outcome carries the state unchanged. -/
theorem C7_role_enforcement (env : Env) (ch : PaymentChannel)
    (a : Balance) (s : Signature) :
    (env.caller ≠ ch.recipient →
      close env ch a s = Outcome.err Error.CallerIsNotRecipient ch ∧
      withdrawn env ch a s = Outcome.err Error.CallerIsNotRecipient ch) ∧
    (env.caller ≠ ch.sender →
      start_sender_close env ch = Outcome.err Error.CallerIsNotSender ch) := by
  refine ⟨fun h => ⟨?_, ?_⟩, fun h => ?_⟩ <;>
    simp [close, close_inner, withdrawn, start_sender_close, h]

/-- C7 witnessed at the third party, account 99, which is neither sender 1
nor recipient 2. -/
theorem C7_witness :
    close envThird ch1 300 0 = Outcome.err Error.CallerIsNotRecipient ch1 ∧
    withdrawn envThird ch1 300 0 = Outcome.err Error.CallerIsNotRecipient ch1 ∧
    start_sender_close envThird ch1 = Outcome.err Error.CallerIsNotSender ch1 := by
  have h := C7_role_enforcement envThird ch1 300 0
  exact ⟨(h.1 (by decide)).1, (h.1 (by decide)).2, h.2 (by decide)⟩

/-- C8 counterexample: at `now = 2 ^ 64 - 1` with `close_duration = 1`, the
checked addition `now.checked_add(close_duration)` overflows and the
`.unwrap()` panics: `start_sender_close` crashes, so no typed overflow
error is surfaced (indeed the `Error` enum has no overflow variant at
all). -/
theorem C8_counterexample :
    start_sender_close envBig chDur1 = Outcome.panic := by decide

/-- C8 amended: the timestamp addition in `start_sender_close` is
overflow-checked (`checked_add`), but on overflow the call panics via
`unwrap` instead of surfacing a typed error. -/
theorem C8_amended_overflow_panics (env : Env) (ch : PaymentChannel)
    (h1 : env.caller = ch.sender)
    (h2 : U64_MOD ≤ env.block_timestamp + ch.close_duration) :
    start_sender_close env ch = Outcome.panic := by
  simp [start_sender_close, h1, checked_add_u64, Nat.not_lt.mpr h2]

/-- C8 amended, witnessed at the overflowing timestamp. -/
theorem C8_amended_witness :
    start_sender_close envBig chDur1 = Outcome.panic :=
  C8_amended_overflow_panics envBig chDur1 (by decide) (by decide)

/-- C9: whenever ECDSA recovery of the signature over the hash of
`(account_id, amount)` succeeds with key `pk`, `is_signature_valid` — the
single verification routine used by both the withdraw and close paths —
returns true exactly when the identity derived from `pk` equals the
channel's `recipient` (the comparison is against `recipient`, not
`sender`). -/
theorem C9_signature_check_against_recipient (env : Env) (ch : PaymentChannel)
    (a : Balance) (s : Signature) (pk : PubKey)
    (h : env.recover s (env.hash_encoded (env.account_id, a)) = some pk) :
    (is_signature_valid env ch a s = PanicOr.ok true ↔
      env.hash_pubkey pk = ch.recipient) := by
  simp only [is_signature_valid, h, PanicOr.ok.injEq, beq_iff_eq]
  exact eq_comm

/-- C9 witnessed: under `envOk` every signature recovers to key 7, whose
derived identity is account 2 = recipient of `ch1`, so verification
succeeds. -/
theorem C9_witness :
    is_signature_valid envOk ch1 300 0 = PanicOr.ok true :=
  (C9_signature_check_against_recipient envOk ch1 300 0 7 (by decide)).mpr
    (by decide)

/-- C10: `clain_timeout` never inspects the caller: for an arbitrary
environment (any caller identity) with `expiration` set and reached, the
call succeeds and terminates the contract in favour of `ch.sender` — the
full remaining balance goes to the sender, never to the caller. -/
theorem C10_claim_timeout_no_caller_restriction (env : Env) (ch : PaymentChannel)
    (e : Timestamp) (h1 : ch.expiration = some e)
    (h2 : e ≤ env.block_timestamp) :
    clain_timeout env ch = Outcome.term ch.sender [] := by
  simp [clain_timeout, h1, Nat.not_lt.mpr h2]

/-- C10 witnessed: a third party (account 99) calls `clain_timeout` at time
10 on a channel whose expiration 5 has passed; the contract terminates in
favour of sender 1, not caller 99. -/
theorem C10_witness :
    clain_timeout envThird chExp = Outcome.term 1 [] :=
  C10_claim_timeout_no_caller_restriction envThird chExp 5 (by decide) (by decide)

end PayChannel
